import Mathlib

/-!
Shallow embedding of the `Elastic` adapter class (src/src/Elastic.ts) of the
yudium/elastic-js repository, together with a model of the remote search
store it talks to.  The adapter's own logic (argument validation, index-name
validation, error translation in `getById`/`updateDocument`, the absence of
error handling in `deleteDocument`, the `ignore: [404]` option of
`deleteIndex`, and the connection-error message of `establish`) is translated
directly from the TypeScript source.  The behaviour of the remote store and
of the `@elastic/elasticsearch` client — which are not part of the repository
— is modelled from the spec where a claim needs it; each such definition
carries a doc comment saying so.
-/

/-- A JavaScript value as it arrives in an optional `host?: string` /
`port?: string` parameter position: `undefined` (argument missing), an actual
string, or some non-string value.  `typeof x !== "string"` is true exactly
for the non-`str` constructors. -/
inductive JsArg
  | undef : JsArg
  | str : String → JsArg
  | other : JsArg
deriving DecidableEq, Repr

/-- `typeof x === "string"` for a `JsArg`. -/
def JsArg.isString : JsArg → Bool
  | .str _ => true
  | _ => false

/-- The string held by a `JsArg`, empty for non-strings (only used after the
`isString` checks have passed, mirroring the TypeScript narrowing). -/
def JsArg.getStr : JsArg → String
  | .str s => s
  | _ => ""

/-- Where `Elastic.establish` stands after its two argument checks
(src/src/Elastic.ts lines 16-26): either it has thrown `Error("Host invalid")`
before constructing any client, or it has constructed the client with
`node: host + ":" + port` and is about to issue the liveness probe. -/
inductive EstablishStage
  | invalidArg : String → EstablishStage
  | probe : String → EstablishStage
deriving DecidableEq, Repr

/-- The argument-validation head of `Elastic.establish`
(src/src/Elastic.ts lines 16-26):

    if (typeof host !== "string") { throw new Error("Host invalid"); }
    if (typeof port !== "string") { throw new Error("Host invalid"); }
    const client = new Client({ node: host + ":" + port });
-/
def establishValidate (host port : JsArg) : EstablishStage :=
  if !host.isString then .invalidArg "Host invalid"
  else if !port.isString then .invalidArg "Host invalid"
  else .probe (host.getStr ++ ":" ++ port.getStr)

/-- Full `Elastic.establish` (src/src/Elastic.ts lines 16-34), parametrised
by the outcome of the liveness probe `client.info()` (a remote call outside
the repository): on probe failure `e` the adapter throws
`Error("Cannot establish elasticsearch connection: " + e)`.  A successful
result is represented by the node string the client was built with. -/
def establish (host port : JsArg) (probeResult : Except String Unit) :
    Except String String :=
  match establishValidate host port with
  | .invalidArg m => .error m
  | .probe node =>
    match probeResult with
    | .ok _ => .ok node
    | .error e => .error ("Cannot establish elasticsearch connection: " ++ e)

/-- Field values of a document: strings or sequences of strings
(`type Body = { [key: string]: string | string[] }`). -/
inductive FieldValue
  | str : String → FieldValue
  | seq : List String → FieldValue
deriving DecidableEq, Repr

/-- A document body: a mapping from field names to field values, as an
association list. -/
abbrev Body := List (String × FieldValue)

/-- The store-assigned opaque document id.  The TypeScript source types it as
a string and never inspects it; the model uses the store's internal counter
value directly. -/
abbrev DocumentId := Nat

/-- Characters admitted by the index-name regex `/^[a-z0-9\-]+$/`. -/
def isIndexChar (c : Char) : Bool :=
  ('a' ≤ c && c ≤ 'z') || ('0' ≤ c && c ≤ '9') || c = '-'

/-- `name.match(/^[a-z0-9\-]+$/) !== null`: at least one character, all of
them lowercase letters, digits or hyphens. -/
def matchesIndexPattern (name : String) : Bool :=
  !name.data.isEmpty && name.data.all isIndexChar

/-- Domain errors thrown by the adapter itself. -/
inductive ElasticError
  | invalidName : String → ElasticError
  | writeFailed : String → ElasticError
deriving DecidableEq, Repr

/-- `validateIndex` (src/src/Elastic.ts lines 42-47): throws
`Error("Only snake-case allowed")` when the name does not match
`/^[a-z0-9\-]+$/`. -/
def validateIndex (name : String) : Except ElasticError Unit :=
  if matchesIndexPattern name then .ok ()
  else .error (.invalidName "Only snake-case allowed")

/-- A document held by the store: its store-assigned id, the collection
(index) and type tag it was written under, and its source body. -/
structure StoredDoc where
  id : DocumentId
  index : String
  typ : String
  source : Body
deriving DecidableEq, Repr

/-- Modelled from the spec: the remote search store (the Elasticsearch
cluster behind the `@elastic/elasticsearch` client, which is not code of
this repository).  It holds the documents written so far and the next
internal id to assign; ids grow monotonically, giving the ascending
internal-id ("insertion") order used for sorting.  Every write path of the
adapter requests `refresh: "true"` and/or issues an explicit refresh, so the
model makes writes immediately visible. -/
structure Store where
  docs : List StoredDoc
  nextId : Nat
deriving DecidableEq, Repr

/-- A store holding no documents. -/
def emptyStore : Store := { docs := [], nextId := 0 }

/-- The store invariant: every held document's id was assigned before the
current counter value. -/
def Store.wf (s : Store) : Prop :=
  ∀ d ∈ s.docs, d.id < s.nextId

/-- The `body` carried by a client error (`e.body`): it may expose the
structured not-found flag `found`. -/
structure ErrBody where
  found : Option Bool
deriving DecidableEq, Repr

/-- Modelled from the spec: a failure raised by the `@elastic/elasticsearch`
client (not code of this repository).  Response errors carry a structured
`body`; transport failures (connection refused, timeout) carry none, so
`e.body` is `undefined` for them. -/
structure ClientError where
  body : Option ErrBody
  msg : String
deriving DecidableEq, Repr

/-- The client error the store raises for a missing document or index: its
body carries `found: false`. -/
def notFoundError (m : String) : ClientError :=
  { body := some { found := some false }, msg := m }

/-- A network request issued by the adapter, recorded so that theorems can
speak about which calls reach the store. -/
inductive NetCall
  | indexReq : String → String → Body → Bool → NetCall
  | refreshReq : String → NetCall
  | getReq : String → String → DocumentId → NetCall
  | updateReq : String → String → DocumentId → Body → Bool → NetCall
  | deleteReq : String → String → DocumentId → Bool → NetCall
  | indicesDeleteReq : String → Bool → NetCall
deriving DecidableEq, Repr

/-- The client's response to `client.index`. -/
structure IndexResponse where
  result : String
  statusCode : Nat
  docId : DocumentId
deriving DecidableEq, Repr

/-- Modelled from the spec: `client.index` on the store — assigns the next
internal id, appends the document, and reports a created resource with a
success status. -/
def clientIndex (s : Store) (index typ : String) (body : Body) :
    IndexResponse × Store :=
  ({ result := "created", statusCode := 201, docId := s.nextId },
   { docs := s.docs ++ [{ id := s.nextId, index := index, typ := typ, source := body }],
     nextId := s.nextId + 1 })

instance {ε α : Type} [DecidableEq ε] [DecidableEq α] : DecidableEq (Except ε α) :=
  fun a b =>
  match a, b with
  | .ok x, .ok y =>
    if h : x = y then .isTrue (by rw [h]) else .isFalse (by simp [h])
  | .error x, .error y =>
    if h : x = y then .isTrue (by rw [h]) else .isFalse (by simp [h])
  | .ok _, .error _ => .isFalse (by simp)
  | .error _, .ok _ => .isFalse (by simp)

/-- Everything `createDocument` produces: the thrown-or-returned outcome, the
store after the call, and the network requests issued. -/
structure CreateResult where
  outcome : Except ElasticError DocumentId
  store : Store
  calls : List NetCall
deriving DecidableEq, Repr

/-- `createDocument` (src/src/Elastic.ts lines 49-63): validates the index
name first; only then calls `client.index` with `refresh: "true"`, issues an
explicit `refresh` of the index, throws `Error("Failed to create document")`
unless the response says `created` with status 201, and returns the
store-assigned id. -/
def createDocument (s : Store) (index typ : String) (body : Body) : CreateResult :=
  match validateIndex index with
  | .error e => { outcome := .error e, store := s, calls := [] }
  | .ok _ =>
    let (result, s1) := clientIndex s index typ body
    let calls := [NetCall.indexReq index typ body true, NetCall.refreshReq index]
    if result.result != "created" || result.statusCode != 201 then
      { outcome := .error (.writeFailed "Failed to create document"),
        store := s1, calls := calls }
    else
      { outcome := .ok result.docId, store := s1, calls := calls }

/-- The client's response to `client.get`; `source` is `body._source`. -/
structure GetResponse where
  source : Body
deriving DecidableEq, Repr

/-- Modelled from the spec: `client.get` on the store — returns the source of
the document with the given id in the given collection and type, and raises
a failure whose body carries the structured flag `found: false` when no such
document exists. -/
def clientGet (s : Store) (index typ : String) (id : DocumentId) :
    Except ClientError GetResponse :=
  match s.docs.find? (fun d => d.index == index && d.typ == typ && d.id == id) with
  | some d => .ok { source := d.source }
  | none => .error (notFoundError "document not found")

/-- What escapes `getById` when it does not return a value: either the
original client error rethrown by `throw e`, or the JavaScript `TypeError`
raised by evaluating `e.body.found` when `e.body` is `undefined`. -/
inductive GetFailure
  | original : ClientError → GetFailure
  | typeErr : GetFailure
deriving DecidableEq, Repr

/-- `getById` (src/src/Elastic.ts lines 65-80), parametrised by the outcome
of `client.get`: on success it returns `body._source`; in the catch clause it
evaluates `e.body.found === false` — when `e.body` is `undefined` that
property read itself raises a `TypeError`; when the flag is exactly `false`
it returns `undefined`; otherwise it rethrows `e`. -/
def getById (res : Except ClientError GetResponse) :
    Except GetFailure (Option Body) :=
  match res with
  | .ok r => .ok (some r.source)
  | .error e =>
    match e.body with
    | none => .error .typeErr
    | some b => if b.found = some false then .ok none else .error (.original e)

/-- `getById` run against the modelled store: the adapter composed with
`clientGet`. -/
def getByIdStore (s : Store) (index typ : String) (id : DocumentId) :
    Except GetFailure (Option Body) :=
  getById (clientGet s index typ id)

/-- Modelled from the spec: the partial-document merge the store applies on
update — supplied fields overwrite or extend the stored mapping, fields not
supplied keep their value. -/
def mergeBody (old new : Body) : Body :=
  old.map (fun kv =>
    match new.lookup kv.1 with
    | some v => (kv.1, v)
    | none => kv) ++
  new.filter (fun kv => old.lookup kv.1 = none)

/-- Modelled from the spec: `client.update` on the store — merges the partial
body into the document with the given id, and raises the store's structured
not-found failure when no such document exists. -/
def clientUpdate (s : Store) (index typ : String) (id : DocumentId)
    (body : Body) : Except ClientError Store :=
  match s.docs.find? (fun d => d.index == index && d.typ == typ && d.id == id) with
  | some _ =>
    .ok { s with docs := s.docs.map (fun d =>
      if d.index == index && d.typ == typ && d.id == id then
        { d with source := mergeBody d.source body }
      else d) }
  | none => .error (notFoundError "document missing")

/-- `updateDocument` (src/src/Elastic.ts lines 82-97), parametrised by the
outcome of `client.update`: the whole call sits in a try block whose catch
clause returns `false` for every error, so the adapter returns `true` exactly
on success and never lets any failure escape. -/
def updateDocument (res : Except ClientError Unit) : Bool :=
  match res with
  | .ok _ => true
  | .error _ => false

/-- `updateDocument` run against the modelled store, also returning the
store the call leaves behind. -/
def updateDocumentStore (s : Store) (index typ : String) (id : DocumentId)
    (body : Body) : Bool × Store :=
  match clientUpdate s index typ id body with
  | .ok s1 => (true, s1)
  | .error _ => (false, s)

/-- The store with the document matching (index, typ, id) removed. -/
def removeDoc (s : Store) (index typ : String) (id : DocumentId) : Store :=
  { s with docs :=
      s.docs.filter (fun d => !(d.index == index && d.typ == typ && d.id == id)) }

/-- The store with every document of the collection removed. -/
def removeIndexDocs (s : Store) (index : String) : Store :=
  { s with docs := s.docs.filter (fun d => !(d.index == index)) }

/-- Modelled from the spec: `client.delete` on the store — removes the
document with the given id; when no such document exists the store reports
not-found as a structured failure, which the client raises unless told to
ignore it (as `getById`'s handler and `deleteIndex`'s `ignore: [404]` option
show for the other endpoints).  `deleteDocument` passes no ignore option. -/
def clientDelete (s : Store) (index typ : String) (id : DocumentId) :
    Except ClientError Store :=
  if s.docs.any (fun d => d.index == index && d.typ == typ && d.id == id) then
    .ok (removeDoc s index typ id)
  else .error (notFoundError "document not found")

/-- What `deleteDocument` produces: the outcome (it has no try/catch, so a
client failure propagates), and the network request it issued. -/
structure DeleteResult where
  outcome : Except ClientError Store
  calls : List NetCall
deriving DecidableEq, Repr

/-- `deleteDocument` (src/src/Elastic.ts lines 206-208):
`await this.client.delete({ index, type, id, refresh: "true" })` — a single
client call with immediate-visibility refresh, no error handling around it. -/
def deleteDocument (s : Store) (index typ : String) (id : DocumentId) :
    DeleteResult :=
  { outcome := clientDelete s index typ id,
    calls := [NetCall.deleteReq index typ id true] }

/-- Modelled from the spec: `client.indices.delete` on the store — removes
every document of the collection; a missing collection is a 404, raised
unless 404 is in the call's `ignore` list. -/
def clientIndicesDelete (s : Store) (index : String) (ignore404 : Bool) :
    Except ClientError Store :=
  if s.docs.any (fun d => d.index == index) then
    .ok (removeIndexDocs s index)
  else if ignore404 then .ok s
  else .error (notFoundError "index not found")

/-- `deleteIndex` (src/src/Elastic.ts lines 210-213):
`await this.client.indices.delete({ index }, { ignore: [404] }); return true`
— the 404 of a missing collection is ignored, and the adapter returns `true`. -/
def deleteIndex (s : Store) (index : String) : Except ClientError (Bool × Store) :=
  match clientIndicesDelete s index true with
  | .ok s1 => .ok (true, s1)
  | .error e => .error e

/-- Modelled from the spec: the store's analyzer — tokenizes a text on word
boundaries (whitespace), accumulating the current token in `acc`. -/
def splitTokens : List Char → List Char → List String
  | [], acc => if acc.isEmpty then [] else [String.mk acc.reverse]
  | c :: cs, acc =>
    if c = ' ' then
      if acc.isEmpty then splitTokens cs []
      else String.mk acc.reverse :: splitTokens cs []
    else splitTokens cs (c :: acc)

/-- The tokens of a text under the modelled analyzer. -/
def analyzeTokens (s : String) : List String :=
  splitTokens s.data []

/-- The analyzed tokens of a field value: a string is tokenized, a sequence
of strings is tokenized element by element. -/
def fieldTokens : FieldValue → List String
  | .str s => analyzeTokens s
  | .seq l => l.flatMap analyzeTokens

/-- Modelled from the spec: the store's analyzed `match` query used by
`searchByField` (src/src/Elastic.ts line 120, `match: { [field]: query }`) —
the query is analyzed into tokens and a field value matches when one of the
query's tokens equals one of the value's whole tokens, so `"aa"` matches
`"aa"` and `"aa bb"` but not `"aaa"`. -/
def matchesQuery (v : FieldValue) (query : String) : Bool :=
  (analyzeTokens query).any (fun qt => (fieldTokens v).contains qt)

/-- Insert a document into a list kept sorted ascending by internal id. -/
def insertById (d : StoredDoc) : List StoredDoc → List StoredDoc
  | [] => [d]
  | e :: es => if d.id ≤ e.id then d :: e :: es else e :: insertById d es

/-- Sort documents ascending by internal id (insertion sort). -/
def sortById (l : List StoredDoc) : List StoredDoc :=
  l.foldr insertById []

/-- The hits of `searchByField` on the store: the documents of the
(collection, type) pair whose given field matches the query, sorted by
internal id ascending (`sort: [{ _uid: { order: "asc" } }]`). -/
def searchHits (s : Store) (index typ field query : String) : List StoredDoc :=
  sortById (s.docs.filter (fun d => d.index == index && d.typ == typ &&
    (match d.source.lookup field with
     | some v => matchesQuery v query
     | none => false)))

/-- `searchByField` (src/src/Elastic.ts lines 113-204) run against the
modelled store: a `match` query on one field, hits sorted ascending by
internal id, mapped to their `_source` bodies. -/
def searchByField (s : Store) (index typ field query : String) : List Body :=
  (searchHits s index typ field query).map (fun d => d.source)

/-- The collection name used by the repository's search test. -/
def exampleIndex : String := "unit-test-elastic-index"

/-- The type tag used by the repository's tests. -/
def exampleType : String := "typeName"

/-- The first test document, field value `"aa"`. -/
def docAA : Body := [("keyName", FieldValue.str "aa")]

/-- The second test document, field value `"aa bb"`. -/
def docAABB : Body := [("keyName", FieldValue.str "aa bb")]

/-- The third test document, field value `"cc"`. -/
def docCC : Body := [("keyName", FieldValue.str "cc")]

/-- The store after inserting the three test documents, in order, into an
empty store. -/
def exampleStore3 : Store :=
  (createDocument (createDocument (createDocument emptyStore exampleIndex
    exampleType docAA).store exampleIndex exampleType docAABB).store
    exampleIndex exampleType docCC).store

/-- Claim C7, counterexample: with the empty-string host `""` and port
`"9200"` — inputs the claim says must fail fast with the invalid-argument
error — `establish`'s validation instead passes and the call proceeds to
construct the client (node `":9200"`) and issue the liveness probe; the code
never checks for emptiness. -/
theorem C7_counterexample :
    establishValidate (JsArg.str "") (JsArg.str "9200") =
      EstablishStage.probe ":9200" ∧
    establishValidate (JsArg.str "") (JsArg.str "9200") ≠
      EstablishStage.invalidArg "Host invalid" := by
  decide

/-- Claim C7 (amended): `establish` fails fast with the invalid-argument
error `"Host invalid"`, before constructing any client or making any network
call, exactly when host or port is missing or not a string; empty strings
are not rejected, and on any two strings (empty or not) it proceeds to the
liveness probe against `host + ":" + port`. -/
theorem C7_establish_validation (host port : JsArg) :
    (establishValidate host port = EstablishStage.invalidArg "Host invalid" ↔
      (host.isString = false ∨ port.isString = false)) ∧
    (host.isString = true → port.isString = true →
      establishValidate host port =
        EstablishStage.probe (host.getStr ++ ":" ++ port.getStr)) := by
  cases host <;> cases port <;>
    simp [establishValidate, JsArg.isString, JsArg.getStr]

/-- Witness for C7_establish_validation at concrete inputs. -/
theorem C7_establish_validation_witness :
    establishValidate (JsArg.str "http://localhost") (JsArg.str "9200") =
      EstablishStage.probe "http://localhost:9200" :=
  (C7_establish_validation (JsArg.str "http://localhost")
    (JsArg.str "9200")).2 rfl rfl

/-- Claim C8: whenever both arguments pass validation and the liveness probe
fails with cause `cause`, `establish` raises an error whose message is
exactly the literal `"Cannot establish elasticsearch connection: "` followed
by the cause text. -/
theorem C8_connection_error_message (h p cause : String) :
    establish (JsArg.str h) (JsArg.str p) (Except.error cause) =
      Except.error ("Cannot establish elasticsearch connection: " ++ cause) := by
  simp [establish, establishValidate, JsArg.isString]

/-- Claim C10: a non-string host and a non-string port are rejected with the
identical message `"Host invalid"`, indistinguishable to the caller, and in
both cases validation ends in the invalid-argument stage — before any client
is constructed (the probe stage is where the client exists). -/
theorem C10_same_invalid_message (host port : JsArg) (pr : Except String Unit)
    (h : host.isString = false ∨ port.isString = false) :
    establishValidate host port = EstablishStage.invalidArg "Host invalid" ∧
    establish host port pr = Except.error "Host invalid" := by
  cases host <;> cases port <;>
    simp_all [establishValidate, establish, JsArg.isString]

/-- Witness for C10_same_invalid_message: a non-string port (with a valid
host) and a missing host both yield the same `"Host invalid"` error. -/
theorem C10_same_invalid_message_witness :
    (establishValidate (JsArg.str "http://localhost") JsArg.other =
       EstablishStage.invalidArg "Host invalid" ∧
     establish (JsArg.str "http://localhost") JsArg.other (Except.ok ()) =
       Except.error "Host invalid") ∧
    (establishValidate JsArg.undef (JsArg.str "9200") =
       EstablishStage.invalidArg "Host invalid" ∧
     establish JsArg.undef (JsArg.str "9200") (Except.ok ()) =
       Except.error "Host invalid") :=
  ⟨C10_same_invalid_message (JsArg.str "http://localhost") JsArg.other
     (Except.ok ()) (Or.inr rfl),
   C10_same_invalid_message JsArg.undef (JsArg.str "9200")
     (Except.ok ()) (Or.inl rfl)⟩

/-- Claim C2: for every collection name that does not match
`^[a-z0-9-]+$`, `createDocument` throws the invalid-name error
`"Only snake-case allowed"` with no network request issued and the store
untouched, whatever the body and type tag. -/
theorem C2_invalid_name_no_network (s : Store) (index typ : String)
    (body : Body) (h : matchesIndexPattern index = false) :
    createDocument s index typ body =
      { outcome := Except.error (ElasticError.invalidName "Only snake-case allowed"),
        store := s, calls := [] } := by
  simp [createDocument, validateIndex, h]

/-- Witness for C2_invalid_name_no_network at the camel-case name
`"BadName"`. -/
theorem C2_invalid_name_no_network_witness :
    createDocument emptyStore "BadName" "typeName" docAA =
      { outcome := Except.error (ElasticError.invalidName "Only snake-case allowed"),
        store := emptyStore, calls := [] } :=
  C2_invalid_name_no_network emptyStore "BadName" "typeName" docAA (by decide)

/-- Claim C1: round-trip — on a well-formed store, whenever
`createDocument` succeeds and returns an id, `getById` with that id on the
resulting store returns exactly the written field mapping (the id is held
next to the source, not inside it). -/
theorem C1_round_trip (s : Store) (index typ : String) (M : Body)
    (id : DocumentId) (hwf : s.wf)
    (h : (createDocument s index typ M).outcome = Except.ok id) :
    getByIdStore (createDocument s index typ M).store index typ id =
      Except.ok (some M) := by
  by_cases hv : matchesIndexPattern index
  · have hcd : createDocument s index typ M =
        { outcome := .ok s.nextId,
          store := { docs := s.docs ++ [StoredDoc.mk s.nextId index typ M],
                     nextId := s.nextId + 1 },
          calls := [NetCall.indexReq index typ M true, NetCall.refreshReq index] } := by
      simp [createDocument, validateIndex, hv, clientIndex]
    rw [hcd] at h ⊢
    have hid : id = s.nextId := by
      simpa using h.symm
    subst hid
    simp only [getByIdStore, clientGet]
    rw [List.find?_append]
    have h1 : s.docs.find?
        (fun d => d.index == index && d.typ == typ && d.id == s.nextId) = none := by
      rw [List.find?_eq_none]
      intro d hd
      have hlt := hwf d hd
      simp [Nat.ne_of_lt hlt]
    rw [h1]
    simp [getById]
  · simp [createDocument, validateIndex, hv] at h

/-- Witness for C1_round_trip: writing the mapping `docAA` to an empty store
and reading it back by the returned id yields `docAA`. -/
theorem C1_round_trip_witness :
    getByIdStore (createDocument emptyStore "items" "t" docAA).store "items" "t" 0 =
      Except.ok (some docAA) :=
  C1_round_trip emptyStore "items" "t" docAA 0
    (by simp [Store.wf, emptyStore]) (by decide)

/-- Claim C3, counterexample: a client failure carrying no `body` (as a
transport failure does) is not propagated unchanged — the handler's
`e.body.found` property access raises a `TypeError` in its place. -/
theorem C3_counterexample :
    getById (Except.error { body := none, msg := "connection refused" }) =
      Except.error GetFailure.typeErr ∧
    getById (Except.error { body := none, msg := "connection refused" }) ≠
      Except.error (GetFailure.original { body := none, msg := "connection refused" }) := by
  decide

/-- Claim C3 (amended): on success `getById` returns the source; when the
failure's `body` carries `found === false` it returns the absent result and
does not raise; when the failure carries a `body` whose `found` flag is
anything else the original error propagates unchanged; but a failure
carrying no `body` at all is replaced by the `TypeError` raised when the
handler reads `.found` of `undefined`. -/
theorem C3_get_failure_translation :
    (∀ r : GetResponse, getById (Except.ok r) = Except.ok (some r.source)) ∧
    (∀ (e : ClientError) (b : ErrBody), e.body = some b → b.found = some false →
      getById (Except.error e) = Except.ok none) ∧
    (∀ (e : ClientError) (b : ErrBody), e.body = some b → b.found ≠ some false →
      getById (Except.error e) = Except.error (GetFailure.original e)) ∧
    (∀ e : ClientError, e.body = none →
      getById (Except.error e) = Except.error GetFailure.typeErr) := by
  refine ⟨fun r => rfl, fun e b hb hf => ?_, fun e b hb hf => ?_, fun e hb => ?_⟩
  · simp [getById, hb, hf]
  · simp [getById, hb, hf]
  · simp [getById, hb]

/-- Witness for C3_get_failure_translation at a structured not-found
failure, a structured non-not-found failure, and a bodyless failure. -/
theorem C3_get_failure_translation_witness :
    getById (Except.error (notFoundError "document not found")) = Except.ok none ∧
    getById (Except.error { body := some { found := none }, msg := "server error" }) =
      Except.error (GetFailure.original
        { body := some { found := none }, msg := "server error" }) ∧
    getById (Except.error { body := none, msg := "timeout" }) =
      Except.error GetFailure.typeErr :=
  ⟨C3_get_failure_translation.2.1 (notFoundError "document not found")
     { found := some false } rfl rfl,
   C3_get_failure_translation.2.2.1 { body := some { found := none }, msg := "server error" }
     { found := none } rfl (by decide),
   C3_get_failure_translation.2.2.2 { body := none, msg := "timeout" } rfl⟩

/-- Claim C5: `updateDocument` is a total boolean — `true` exactly when the
client call succeeds, `false` on every failure whatever its cause (the whole
call sits in the catch-all try block), and in particular a missing id makes
the store-level update return `false` with the store unchanged. -/
theorem C5_update_boolean_total :
    (∀ r : Unit, updateDocument (Except.ok r) = true) ∧
    (∀ e : ClientError, updateDocument (Except.error e) = false) ∧
    (∀ (s : Store) (index typ : String) (id : DocumentId) (body : Body),
      s.docs.find? (fun d => d.index == index && d.typ == typ && d.id == id) = none →
      updateDocumentStore s index typ id body = (false, s)) := by
  refine ⟨fun r => rfl, fun e => rfl, fun s index typ id body h => ?_⟩
  simp [updateDocumentStore, clientUpdate, h]

/-- Witness for C5_update_boolean_total: a success, a not-found failure, and
an update of a missing id on the empty store. -/
theorem C5_update_boolean_total_witness :
    updateDocument (Except.ok ()) = true ∧
    updateDocument (Except.error (notFoundError "document missing")) = false ∧
    updateDocumentStore emptyStore "items" "t" 0 docAA = (false, emptyStore) :=
  ⟨C5_update_boolean_total.1 (),
   C5_update_boolean_total.2.1 (notFoundError "document missing"),
   C5_update_boolean_total.2.2 emptyStore "items" "t" 0 docAA rfl⟩

/-- Claim C6, counterexample: deleting an id that is absent (any id on the
empty store) does not complete silently — `deleteDocument` has no catch and
passes no ignore option, so the store's not-found failure propagates to the
caller, who can therefore distinguish it from a successful delete. -/
theorem C6_counterexample :
    (deleteDocument emptyStore "items" "t" 0).outcome =
      Except.error (notFoundError "document not found") := by
  decide

/-- Claim C6 (amended): `deleteDocument` always issues exactly one delete
request with immediate-visibility refresh (`refresh: "true"`); deleting an
existing document completes without error and removes it, but deleting an
absent id propagates the store's not-found failure — the delete is not
idempotent. -/
theorem C6_delete_semantics :
    (∀ (s : Store) (index typ : String) (id : DocumentId),
      (deleteDocument s index typ id).calls = [NetCall.deleteReq index typ id true]) ∧
    (∀ (s : Store) (index typ : String) (id : DocumentId),
      s.docs.any (fun d => d.index == index && d.typ == typ && d.id == id) = true →
      (deleteDocument s index typ id).outcome = Except.ok (removeDoc s index typ id)) ∧
    (∀ (s : Store) (index typ : String) (id : DocumentId),
      s.docs.any (fun d => d.index == index && d.typ == typ && d.id == id) = false →
      (deleteDocument s index typ id).outcome =
        Except.error (notFoundError "document not found")) := by
  refine ⟨fun s index typ id => rfl, fun s index typ id h => ?_, fun s index typ id h => ?_⟩
  · simp [deleteDocument, clientDelete, h]
  · simp [deleteDocument, clientDelete, h]

/-- Witness for C6_delete_semantics on the three-document example store:
deleting the existing id 0 succeeds with refresh, deleting the absent id 99
raises the not-found failure. -/
theorem C6_delete_semantics_witness :
    (deleteDocument exampleStore3 exampleIndex exampleType 0).calls =
      [NetCall.deleteReq exampleIndex exampleType 0 true] ∧
    (deleteDocument exampleStore3 exampleIndex exampleType 0).outcome =
      Except.ok (removeDoc exampleStore3 exampleIndex exampleType 0) ∧
    (deleteDocument exampleStore3 exampleIndex exampleType 99).outcome =
      Except.error (notFoundError "document not found") :=
  ⟨C6_delete_semantics.1 exampleStore3 exampleIndex exampleType 0,
   C6_delete_semantics.2.1 exampleStore3 exampleIndex exampleType 0 (by decide),
   C6_delete_semantics.2.2 exampleStore3 exampleIndex exampleType 99 (by decide)⟩

/-- Claim C9: `deleteIndex` is idempotent — for every store and collection
name, existing or not, it returns `true` without raising (the 404 of a
missing collection is in the call's ignore list), leaving the store without
the collection's documents. -/
theorem C9_delete_index_idempotent (s : Store) (index : String) :
    deleteIndex s index = Except.ok (true, removeIndexDocs s index) := by
  by_cases h : s.docs.any (fun d => d.index == index)
  · simp [deleteIndex, clientIndicesDelete, h]
  · have hfalse : (s.docs.any fun d => d.index == index) = false := by
      simpa using h
    rw [List.any_eq_false] at hfalse
    have hfilter : s.docs.filter (fun d => !(d.index == index)) = s.docs := by
      rw [List.filter_eq_self]
      intro d hd
      have := hfalse d hd
      simp only [Bool.not_eq_true] at this
      simp [this]
    simp [deleteIndex, clientIndicesDelete, h, removeIndexDocs, hfilter]

/-- Claim C4: on the collection holding exactly the documents `"aa"`,
`"aa bb"` and `"cc"` inserted in that order, `searchByField` on `keyName`
with query `"aa"` returns exactly the first two, in ascending internal-id
order; and under the pinned analyzed-term policy the query `"aa"` does not
match a field value `"aaa"`. -/
theorem C4_search_pins_policy :
    searchByField exampleStore3 exampleIndex exampleType "keyName" "aa" =
      [docAA, docAABB] ∧
    matchesQuery (FieldValue.str "aaa") "aa" = false := by
  decide
